import Mathlib

/-!
Verification of the authentication and authorization core of the
`server-fixed` e-commerce backend (Express/Mongoose, JavaScript), as a
shallow embedding in Lean 4.

Source files embedded:
  * `src/helper/authHelpers.js` — password policy, bcrypt wrappers, JWT
    issue/verify, `verifyToken` middleware, `checkAdminOrOwner` policy;
  * the user routes module (`src/unnamed/part_000`) — signup, signin,
    admin signin, Google federated signin, profile update
    (`PUT /:id`), password change (`PUT /change-password/:id`),
    `GET /:id`, `GET /users`;
  * the Joi validation middleware (`src/unnamed/part_003`) —
    `validateSignup`.

Conventions of the embedding:
  * machine integers are `Nat` (timestamps in seconds);
  * bcrypt is modelled symbolically: a stored credential is either a
    salted digest of a recorded plaintext or a raw (never hashed)
    string; `bcrypt.compare` succeeds only against a digest of the
    candidate, and returns `false` (not an error) on a raw, malformed
    stored value — exactly the library contract the code relies on;
  * JWTs are modelled symbolically: a signed token records its payload
    and the secret it was signed with; verification checks the secret
    and the expiration instant (`jsonwebtoken` rejects when
    `now >= exp`);
  * JavaScript truthiness is embedded explicitly where the code depends
    on it (`value || fallback` on strings, `if (array)` on arrays).
-/

namespace ServerFixed

/-! ## Stored credentials (bcrypt model) -/

/-- A password value held in the store: either a bcrypt digest (salted
one-way hash of the recorded plaintext, with the cost factor) or a raw
string that was persisted without ever being hashed. -/
inductive StoredPassword where
  | digest (plain : String) (cost : Nat)
  | raw (plain : String)
deriving DecidableEq, Repr

/-- `hashPassword` from `authHelpers.js`: `bcrypt.hash(password, 10)`. -/
def hashPassword (password : String) : StoredPassword :=
  StoredPassword.digest password 10

/-- `checkPassword` from `authHelpers.js`: `bcrypt.compare(password,
hashedPassword)`. Against a digest it recomputes and compares; against a
raw, non-digest stored value `bcrypt.compare` returns `false`. -/
def checkPassword (password : String) (stored : StoredPassword) : Bool :=
  match stored with
  | StoredPassword.digest plain _ => password = plain
  | StoredPassword.raw _ => false

/-- Whether a stored credential is a bcrypt digest. -/
def StoredPassword.isDigest : StoredPassword → Bool
  | StoredPassword.digest _ _ => true
  | StoredPassword.raw _ => false

/-! ## Password strength policy (`isValidPassword`) -/

def pwMsgMinLength : String := "Mật khẩu phải chứa ít nhất 8 ký tự."
def pwMsgUpper : String := "Mật khẩu phải chứa ít nhất một chữ cái viết hoa."
def pwMsgLower : String := "Mật khẩu phải chứa ít nhất một chữ cái viết thường."
def pwMsgDigit : String := "Mật khẩu phải chứa ít nhất một chữ số."
def pwMsgSpecial : String := "Mật khẩu phải chứa ít nhất một ký tự đặc biệt (!@#$%^&*...)."

/-- The special-character class of `isValidPassword`:
the regex character set of symbols accepted by the policy. -/
def isSpecialChar (c : Char) : Bool :=
  "!@#$%^&*(),.?\":\x7b\x7d|<>".toList.contains c

/-- `isValidPassword` from `authHelpers.js`: returns the list of error
messages, one per violated rule (minimum length 8, uppercase, lowercase,
digit, special character). An empty list means the password is valid. -/
def isValidPassword (password : String) : List String :=
  (if password.length < 8 then [pwMsgMinLength] else []) ++
  (if password.toList.any Char.isUpper then [] else [pwMsgUpper]) ++
  (if password.toList.any Char.isLower then [] else [pwMsgLower]) ++
  (if password.toList.any Char.isDigit then [] else [pwMsgDigit]) ++
  (if password.toList.any isSpecialChar then [] else [pwMsgSpecial])

/-- JavaScript truthiness of an array value: in the source every array
(including `[]`) is truthy, so `if (!isValidPassword(p))` never takes
the rejecting branch. -/
def jsArrayTruthy (_errors : List String) : Bool := true

/-- JavaScript `a || b` on strings: the empty string is falsy. -/
def jsStrOr (value : Option String) (fallback : String) : String :=
  match value with
  | some s => if s = "" then fallback else s
  | none => fallback

/-! ## Tokens (`generateToken`, `jwt.verify`) -/

/-- The decoded payload of a session token, as signed by
`generateToken`: identity fields plus the standard issued-at and
expiration claims (seconds). -/
structure TokenPayload where
  id : String
  username : String
  role : String
  iat : Nat
  exp : Nat
deriving DecidableEq, Repr

/-- A wire token: a well-formed JWT recording its payload and the
secret it was signed with, or an unparsable string. -/
inductive Jwt where
  | signed (payload : TokenPayload) (secret : String)
  | malformed (raw : String)
deriving DecidableEq, Repr

inductive JwtError where
  | signatureInvalid
  | expired
  | malformedToken
deriving DecidableEq, Repr

/-- `jwt.verify(token, secret)` at clock instant `now`: rejects a token
that cannot be parsed, one signed with a different secret, and one whose
expiration instant has been reached (`jsonwebtoken` expires when
`now ≥ exp`). -/
def jwtVerify (token : Jwt) (secret : String) (now : Nat) :
    Except JwtError TokenPayload :=
  match token with
  | Jwt.malformed _ => Except.error JwtError.malformedToken
  | Jwt.signed payload s =>
      if s ≠ secret then Except.error JwtError.signatureInvalid
      else if payload.exp ≤ now then Except.error JwtError.expired
      else Except.ok payload

/-! ## Identity records and views -/

/-- A stored identity record (the Mongoose user document fields the auth
core reads and writes). -/
structure User where
  _id : String
  username : String
  email : String
  phone : String
  fullName : String
  password : StoredPassword
  role : String
  isActive : Bool
  rememberMe : Bool
  avatar : Option String
deriving DecidableEq, Repr

/-- A user object as placed in a response body; `password = none` when
the field was stripped (`delete sanitizedUser.password` /
`.select("-password")`), `some` when the raw document was returned. -/
structure UserView where
  _id : String
  username : String
  email : String
  phone : String
  fullName : String
  password : Option StoredPassword
  role : String
  isActive : Bool
deriving DecidableEq, Repr

/-- The sanitized view: every field of the record except the password. -/
def sanitizeUser (u : User) : UserView :=
  UserView.mk u._id u.username u.email u.phone u.fullName none u.role u.isActive

/-- The raw view: the document as-is, password field included (what
`authWithGoogle` returns). -/
def rawUserView (u : User) : UserView :=
  UserView.mk u._id u.username u.email u.phone u.fullName (some u.password)
    u.role u.isActive

/-! ## Token issuance (`generateToken`) -/

/-- The `expiresIn` duration chosen by `generateToken`, in seconds:
`user.rememberMe ? "7d" : process.env.TOKEN_EXPIRATION || "1h"`.
`tokenExpirationEnv` is the configured override (parsed to seconds) or
`none` when the variable is unset. -/
def expirationSecs (rememberMe : Bool) (tokenExpirationEnv : Option Nat) : Nat :=
  if rememberMe then 7 * 24 * 60 * 60 else tokenExpirationEnv.getD 3600

/-- `generateToken` from `authHelpers.js`: signs
`{id, username, role}` with the server secret, expiring after
`expirationSecs`. -/
def generateToken (u : User) (secret : String) (now : Nat)
    (tokenExpirationEnv : Option Nat) : Jwt :=
  Jwt.signed
    (TokenPayload.mk u._id u.username u.role now
      (now + expirationSecs u.rememberMe tokenExpirationEnv))
    secret

/-! ## Responses and middleware outcomes -/

/-- An HTTP response as produced by the embedded handlers. Fields not
set by a handler keep their defaults. -/
structure Response where
  status : Nat
  message : String
  success : Option Bool := none
  errors : List String := []
  user : Option UserView := none
  token : Option Jwt := none
  setsCookie : Option Jwt := none
  clearsCookie : Bool := false
deriving DecidableEq, Repr

/-- The claims attached to the request context (`req.user`) after
authentication, as read by the authorization policy. -/
structure Claims where
  id : String
  username : String
  role : String
deriving DecidableEq, Repr

/-- The credential-bearing parts of an incoming request:
the `token` session cookie, and the part after the scheme word of an
`Authorization: Bearer <token>` header
(`req.headers.authorization?.split(" ")[1]`), each when present. -/
structure AuthRequest where
  cookieToken : Option Jwt
  bearerToken : Option Jwt
deriving DecidableEq, Repr

/-- Outcome of a middleware: either `next()` was called with claims
attached to the request context, or a response was sent. -/
inductive MwOutcome where
  | next (claims : Claims)
  | respond (r : Response)
deriving DecidableEq, Repr

def pleaseSignInResponse : Response :=
  Response.mk 401 "Vui lòng đăng nhập!" (some false) [] none none none false

def invalidSessionResponse : Response :=
  Response.mk 401 "Phiên đăng nhập không hợp lệ hoặc đã hết hạn!" (some false)
    [] none none none true

/-- `verifyToken` from `authHelpers.js`: cookie-first, header-fallback
token extraction; 401 "please sign in" when neither is present; on any
verification failure clear the `token` cookie and answer 401; on success
attach the decoded `id`, `username`, `role` and continue. -/
def verifyToken (secret : String) (now : Nat) (req : AuthRequest) : MwOutcome :=
  match req.cookieToken.orElse (fun _ => req.bearerToken) with
  | none => MwOutcome.respond pleaseSignInResponse
  | some token =>
      match jwtVerify token secret now with
      | Except.ok payload =>
          MwOutcome.next (Claims.mk payload.id payload.username payload.role)
      | Except.error _ => MwOutcome.respond invalidSessionResponse

/-! ## Authorization policy (`checkAdminOrOwner`) -/

/-- Outcome of the authorization middleware. -/
inductive AuthzOutcome where
  | allow
  | deny (r : Response)
deriving DecidableEq, Repr

def forbiddenResponse : Response :=
  Response.mk 403 "Bạn không có quyền thực hiện hành động này." (some false)
    [] none none none false

/-- `checkAdminOrOwner` from `authHelpers.js`: `next()` when the token
role is `"admin"` or the token id strictly equals `req.params.id`
(`undefined`, i.e. `none`, on a route without an `:id` segment —
a string is never `===` to `undefined`); otherwise 403. -/
def checkAdminOrOwner (claims : Claims) (paramsId : Option String) : AuthzOutcome :=
  if claims.role = "admin" ∨ paramsId = some claims.id then AuthzOutcome.allow
  else AuthzOutcome.deny forbiddenResponse

/-- The `GET /users` route declares no `:id` path segment, so
`req.params.id` is `undefined` there. -/
def usersRouteParamsId : Option String := none

/-! ## Store operations -/

/-- The persistence collaborator: the list of identity records, looked
up with Mongoose `findOne`/`findById` (first match). -/
def findById (store : List User) (id : String) : Option User :=
  store.find? (fun u => u._id = id)

def findByUsername (store : List User) (username : String) : Option User :=
  store.find? (fun u => u.username = username)

def findByPhone (store : List User) (phone : String) : Option User :=
  store.find? (fun u => u.phone = phone)

def findByEmail (store : List User) (email : String) : Option User :=
  store.find? (fun u => u.email = email)

/-- `findByIdAndUpdate` / `save` of an existing document: replace the
record with matching `_id`. -/
def replaceById (store : List User) (id : String) (u : User) : List User :=
  store.map (fun v => if v._id = id then u else v)

/-- Mongoose `ObjectId` validity for a route id: 24 hexadecimal
characters (the `/^[0-9a-fA-F]{24}$/` check of `GET /:id`;
`ObjectId.isValid` accepts the same strings). -/
def isValidObjectId (s : String) : Bool :=
  s.length = 24 &&
    s.toList.all (fun c =>
      c.isDigit || ('a' ≤ c && c ≤ 'f') || ('A' ≤ c && c ≤ 'F'))

/-! ## `GET /:id` — public profile fetch -/

/-- The handler of `router.get("/:id", ...)`: validate the id shape,
fetch the record with the password projected out, 404 when absent. The
route mounts no authentication middleware. -/
def getUserByIdHandler (store : List User) (id : String) : Response :=
  if ¬ isValidObjectId id then
    Response.mk 400 "ID không hợp lệ." (some false) [] none none none false
  else
    match findById store id with
    | none =>
        Response.mk 404 "Không tìm thấy người dùng." (some false) [] none none
          none false
    | some u =>
        Response.mk 200 "Lấy thông tin người dùng thành công." (some true) []
          (some (sanitizeUser u)) none none false

/-- The full `GET /:id` route pipeline: the request's credentials are
never consulted — the middleware chain is just the handler. -/
def getUserByIdRoute (_req : AuthRequest) (store : List User) (id : String) :
    Response :=
  getUserByIdHandler store id

/-! ## `POST /signin` — password signin -/

/-- The phone-shaped classification of the signin input:
`/^[0-9]{10,15}$/.test(usernameOrPhone)`. -/
def isPhoneShaped (s : String) : Bool :=
  s.toList.all Char.isDigit && 10 ≤ s.length && s.length ≤ 15

def invalidCredentialsResponse : Response :=
  Response.mk 400 "Tên đăng nhập, số điện thoại hoặc mật khẩu không đúng."
    (some false) [] none none none false

def inactiveAccountResponse : Response :=
  Response.mk 403 "Tài khoản của bạn đã bị vô hiệu hóa." (some false) [] none
    none none false

/-- The handler of `router.post("/signin", ...)` (after the Joi
middleware): required-field checks, phone-vs-username classification,
single lookup, password check, active check, then token + cookie +
sanitized user. A lookup miss and a password mismatch produce the same
response. -/
def signinHandler (store : List User) (usernameOrPhone password : String)
    (secret : String) (now : Nat) (tokenExpirationEnv : Option Nat) : Response :=
  if usernameOrPhone = "" then
    Response.mk 400 "Tên đăng nhập hoặc số điện thoại là bắt buộc." (some false)
      [] none none none false
  else if password = "" then
    Response.mk 400 "Mật khẩu là bắt buộc." (some false) [] none none none false
  else
    match
      (if isPhoneShaped usernameOrPhone then findByPhone store usernameOrPhone
       else findByUsername store usernameOrPhone) with
    | none => invalidCredentialsResponse
    | some user =>
        if ¬ checkPassword password user.password then invalidCredentialsResponse
        else if ¬ user.isActive then inactiveAccountResponse
        else
          let token := generateToken user secret now tokenExpirationEnv
          Response.mk 200 "Đăng nhập thành công." (some true) []
            (some (sanitizeUser user)) (some token) (some token) false

/-! ## `PUT /change-password/:id` — password change -/

/-- The handler of `router.put("/change-password/:id", ...)` (runs after
`verifyToken` and `checkAdminOrOwner`). Returns the response and the
resulting store. The new-password validity test in the source is
`if (!isValidPassword(newPassword))`: `isValidPassword` returns an
array, which is truthy even when empty, so the branch is never taken. -/
def changePasswordHandler (store : List User) (id : String)
    (currentPassword newPassword : String) : Response × List User :=
  if currentPassword = "" then
    (Response.mk 400 "Mật khẩu hiện tại là bắt buộc." (some false) [] none none
      none false, store)
  else if newPassword = "" then
    (Response.mk 400 "Mật khẩu mới là bắt buộc." (some false) [] none none none
      false, store)
  else
    match findById store id with
    | none =>
        (Response.mk 404 "Không tìm thấy người dùng." (some false) [] none none
          none false, store)
    | some user =>
        if ¬ checkPassword currentPassword user.password then
          (Response.mk 400 "Mật khẩu hiện tại không đúng." (some false) [] none
            none none false, store)
        else if ¬ jsArrayTruthy (isValidPassword newPassword) then
          (Response.mk 400 "Mật khẩu mới không hợp lệ." (some false) [] none
            none none false, store)
        else
          let updated : User :=
            User.mk user._id user.username user.email user.phone user.fullName
              (hashPassword newPassword) user.role user.isActive user.rememberMe
              user.avatar
          (Response.mk 200 "Mật khẩu đã được thay đổi thành công." (some true)
            [] none none none false, replaceById store id updated)

/-- The full `PUT /change-password/:id` pipeline:
`verifyToken`, then `checkAdminOrOwner`, then the handler. -/
def changePasswordRoute (secret : String) (now : Nat) (req : AuthRequest)
    (paramsId : String) (currentPassword newPassword : String)
    (store : List User) : Response × List User :=
  match verifyToken secret now req with
  | MwOutcome.respond r => (r, store)
  | MwOutcome.next claims =>
      match checkAdminOrOwner claims (some paramsId) with
      | AuthzOutcome.deny r => (r, store)
      | AuthzOutcome.allow =>
          changePasswordHandler store paramsId currentPassword newPassword

/-! ## `PUT /:id` — profile update

`isValidEmail` / `isValidPhone` wrap the third-party `validator`
library; the embedding abstracts them as predicate parameters
(`validEmail`, `validPhone`). -/

/-- The optional fields of the update body (`none` = absent;
`isActive` is compared with `=== undefined` in the source, so a present
`false` survives). `file` is the uploaded avatar's resulting URL when a
file was sent. -/
structure UpdateBody where
  username : Option String := none
  email : Option String := none
  phone : Option String := none
  fullName : Option String := none
  role : Option String := none
  isActive : Option Bool := none
  password : Option String := none
  file : Option String := none
deriving DecidableEq, Repr

/-- JS truthiness of an optional string field (`if (field)`):
present and non-empty. -/
def jsStrTruthy (v : Option String) : Bool :=
  match v with
  | some s => s ≠ ""
  | none => false

/-- The handler of `router.put("/:id", ...)` (runs after `verifyToken`
and `checkAdminOrOwner`): id validity, 404, duplicate username/phone,
email/phone format, optional password (whose validity test is again the
always-truthy `!isValidPassword(password)`), then
`findByIdAndUpdate` with `field || user.field` fallbacks — including
`role: role || user.role`. -/
def updateUserHandler (validEmail validPhone : String → Bool)
    (store : List User) (id : String) (body : UpdateBody) :
    Response × List User :=
  if ¬ isValidObjectId id then
    (Response.mk 400 "ID không hợp lệ." (some false) [] none none none false,
      store)
  else
    match findById store id with
    | none =>
        (Response.mk 404 "Không tìm thấy người dùng." (some false) [] none none
          none false, store)
    | some user =>
        if jsStrTruthy body.username && body.username != some user.username &&
            (findByUsername store (jsStrOr body.username "")).isSome then
          (Response.mk 400 "Username đã tồn tại. Vui lòng chọn tên khác."
            (some false) [] none none none false, store)
        else if jsStrTruthy body.phone && body.phone != some user.phone &&
            ((findByPhone store (jsStrOr body.phone "")).any
              (fun existing => existing._id != id)) then
          (Response.mk 400 "Số điện thoại đã tồn tại. Vui lòng chọn số khác."
            (some false) [] none none none false, store)
        else if jsStrTruthy body.email && ! validEmail (jsStrOr body.email "") then
          (Response.mk 400 "Email không hợp lệ." (some false) [] none none none
            false, store)
        else if jsStrTruthy body.phone && ! validPhone (jsStrOr body.phone "") then
          (Response.mk 400 "Số điện thoại không hợp lệ." (some false) [] none
            none none false, store)
        else if jsStrTruthy body.password &&
            ! jsArrayTruthy (isValidPassword (jsStrOr body.password "")) then
          (Response.mk 400 "Mật khẩu không hợp lệ." (some false) [] none none
            none false, store)
        else
          let hashed : Option StoredPassword :=
            if jsStrTruthy body.password then
              some (hashPassword (jsStrOr body.password ""))
            else none
          let updated : User :=
            User.mk user._id (jsStrOr body.username user.username)
              (jsStrOr body.email user.email) (jsStrOr body.phone user.phone)
              (jsStrOr body.fullName user.fullName)
              (hashed.getD user.password) (jsStrOr body.role user.role)
              (body.isActive.getD user.isActive) user.rememberMe
              (match body.file with
               | some url => some url
               | none => user.avatar)
          (Response.mk 200 "Cập nhật thông tin người dùng thành công."
            (some true) [] (some (sanitizeUser updated)) none none false,
            replaceById store id updated)

/-- The full `PUT /:id` pipeline: `verifyToken`, then
`checkAdminOrOwner`, then the update handler. -/
def putUserRoute (validEmail validPhone : String → Bool) (secret : String)
    (now : Nat) (req : AuthRequest) (paramsId : String) (body : UpdateBody)
    (store : List User) : Response × List User :=
  match verifyToken secret now req with
  | MwOutcome.respond r => (r, store)
  | MwOutcome.next claims =>
      match checkAdminOrOwner claims (some paramsId) with
      | AuthzOutcome.deny r => (r, store)
      | AuthzOutcome.allow =>
          updateUserHandler validEmail validPhone store paramsId body

/-! ## `POST /authWithGoogle` — federated signin -/

/-- The derived username of a freshly federated account:
`"temp_" + fullName.split(" ").join("").toLowerCase()`. -/
def deriveGoogleUsername (fullName : String) : String :=
  "temp_" ++ (String.join (fullName.splitOn " ")).toLower

/-- The handler of `router.post("/authWithGoogle", ...)`: look up by
email; when absent, persist a new identity whose `password` field is
set directly to the random password string (never passed through
`hashPassword`), then issue a token, set the cookie and answer 200 with
`user: existingUser` — the raw document, password field included.
`randomPhone`/`randomPassword` stand for the `Math.random()` draws;
after `save()` the document's `isNew` flag is `false`, so the message
is the signed-in one on both paths. -/
def authWithGoogle (store : List User) (fullName email : String)
    (images : Option String) (randomPhone randomPassword : String)
    (secret : String) (now : Nat) (tokenExpirationEnv : Option Nat) :
    Response × List User :=
  match findByEmail store email with
  | some user =>
      let token := generateToken user secret now tokenExpirationEnv
      (Response.mk 200 "Đăng nhập thành công." (some true) []
        (some (rawUserView user)) none (some token) false, store)
  | none =>
      let newUser : User :=
        User.mk "" (deriveGoogleUsername fullName) email randomPhone fullName
          (StoredPassword.raw randomPassword) "user" true false images
      let token := generateToken newUser secret now tokenExpirationEnv
      (Response.mk 200 "Đăng nhập thành công." (some true) []
        (some (rawUserView newUser)) none (some token) false,
        store ++ [newUser])

/-! ## Joi `validateSignup` middleware -/

structure SignupBody where
  username : String
  phone : String
  fullName : String
  password : String
  confirmPassword : String
deriving DecidableEq, Repr

/-- The custom message attached to the Joi password pattern rule. -/
def joiPasswordPatternMsg : String :=
  "Mật khẩu phải có ít nhất 1 chữ hoa, 1 chữ thường và 1 số"

/-- The custom message of the `confirmPassword` equality rule. -/
def joiConfirmMsg : String := "Mật khẩu xác nhận không khớp"

/- The remaining detail strings stand for Joi's library-default English
messages (their exact wording is generated by Joi, not by this
repository). -/
def joiUsernameInvalidMsg : String := "username invalid"
def joiPhoneInvalidMsg : String := "phone invalid"
def joiFullNameInvalidMsg : String := "fullName invalid"
def joiPasswordLengthMsg : String := "password length invalid"
def joiRequiredMsg (field : String) : String := field ++ " is required"

def isAlphanumChar (c : Char) : Bool := c.isAlpha || c.isDigit

/-- Joi's `.trim()`: the value with leading and trailing whitespace
removed. -/
def joiTrim (s : String) : String :=
  String.mk
    (((s.toList.dropWhile Char.isWhitespace).reverse.dropWhile
      Char.isWhitespace).reverse)

/-- The Joi phone pattern `/^(0|\+?\d{1,3})[0-9]{9,14}$/`: either a
leading `0` followed by 9–14 digits, or an optional `+` followed by a
1–3 digit prefix and 9–14 further digits (i.e. 10–17 digits in all). -/
def joiPhonePattern (s : String) : Bool :=
  (match s.toList with
   | '0' :: rest =>
       rest.all Char.isDigit && 9 ≤ rest.length && rest.length ≤ 14
   | _ => false) ||
  (let digits := match s.toList with
     | '+' :: rest => rest
     | cs => cs
   digits.all Char.isDigit && 10 ≤ digits.length && digits.length ≤ 17)

/-- The Joi password pattern `/^(?=.*[A-Z])(?=.*[a-z])(?=.*\d).+$/`:
at least one uppercase letter, one lowercase letter and one digit
(no special-character requirement). -/
def joiPasswordPattern (s : String) : Bool :=
  s.toList.any Char.isUpper && s.toList.any Char.isLower &&
    s.toList.any Char.isDigit && s.length ≥ 1

/-- The Joi failure details of `validateSignup`
(`abortEarly: false` collects every failing rule, in schema key
order). -/
def joiSignupDetails (b : SignupBody) : List String :=
  (let u := joiTrim b.username
   if u = "" then [joiRequiredMsg "username"]
   else if ¬ (u.toList.all isAlphanumChar ∧ 3 ≤ u.length ∧ u.length ≤ 30) then
     [joiUsernameInvalidMsg]
   else []) ++
  (if b.phone = "" then [joiRequiredMsg "phone"]
   else if ¬ joiPhonePattern b.phone then [joiPhoneInvalidMsg]
   else []) ++
  (let f := joiTrim b.fullName
   if f = "" then [joiRequiredMsg "fullName"]
   else if ¬ (3 ≤ f.length ∧ f.length ≤ 100) then [joiFullNameInvalidMsg]
   else []) ++
  (if b.password = "" then [joiRequiredMsg "password"]
   else
     (if ¬ (8 ≤ b.password.length ∧ b.password.length ≤ 64) then
       [joiPasswordLengthMsg] else []) ++
     (if ¬ joiPasswordPattern b.password then [joiPasswordPatternMsg] else [])) ++
  (if b.confirmPassword = b.password then [] else [joiConfirmMsg])

/-- The `validateSignup` middleware: `some` rejection response when any
rule fails, `none` (i.e. `next()`) otherwise. -/
def validateSignup (b : SignupBody) : Option Response :=
  let details := joiSignupDetails b
  if details.isEmpty then none
  else
    some (Response.mk 400 "Dữ liệu đăng ký không hợp lệ" (some false) details
      none none none false)

/-! ## `POST /signup` — registration -/

/-- The handler of `router.post("/signup", ...)` (runs after
`authLimiter` and `validateSignup`): required fields, confirmation
match, phone format, password strength (`isValidPassword`, errors
enumerated in the body), username then phone uniqueness, bcrypt hash,
synthesized `temp_<now>@example.com` email, persist, strip password,
issue token, set cookie, 201. Role/active/rememberMe take the schema
defaults of the user model. -/
def signupHandler (validPhone : String → Bool) (store : List User)
    (b : SignupBody) (secret : String) (now : Nat)
    (tokenExpirationEnv : Option Nat) : Response × List User :=
  if b.username = "" then
    (Response.mk 400 "username là bắt buộc." (some false) [] none none none
      false, store)
  else if b.phone = "" then
    (Response.mk 400 "phone là bắt buộc." (some false) [] none none none false,
      store)
  else if b.password = "" then
    (Response.mk 400 "password là bắt buộc." (some false) [] none none none
      false, store)
  else if b.fullName = "" then
    (Response.mk 400 "fullName là bắt buộc." (some false) [] none none none
      false, store)
  else if b.confirmPassword = "" then
    (Response.mk 400 "confirmPassword là bắt buộc." (some false) [] none none
      none false, store)
  else if b.password ≠ b.confirmPassword then
    (Response.mk 400 "Mật khẩu và xác nhận mật khẩu không khớp." (some false)
      [] none none none false, store)
  else if ¬ validPhone b.phone then
    (Response.mk 400 "Số điện thoại không hợp lệ." (some false) [] none none
      none false, store)
  else if ¬ (isValidPassword b.password).isEmpty then
    (Response.mk 400 "Mật khẩu không hợp lệ." (some false)
      (isValidPassword b.password) none none none false, store)
  else if (findByUsername store b.username).isSome then
    (Response.mk 400 "Tên người dùng đã tồn tại." (some false) [] none none
      none false, store)
  else if (store.find? (fun u =>
      u.username = b.username ∨ u.phone = b.phone)).isSome then
    (Response.mk 400 "Số điện thoại đã tồn tại." (some false) [] none none none
      false, store)
  else
    let newUser : User :=
      User.mk "" b.username ("temp_" ++ toString now ++ "@example.com")
        b.phone b.fullName (hashPassword b.password) "user" true false none
    let token := generateToken newUser secret now tokenExpirationEnv
    (Response.mk 201 "Đăng ký thành công" none [] (some (sanitizeUser newUser))
      (some token) (some token) false, store ++ [newUser])

/-- The full `POST /signup` pipeline: the Joi middleware short-circuits
before the handler. -/
def signupRoute (validPhone : String → Bool) (store : List User)
    (b : SignupBody) (secret : String) (now : Nat)
    (tokenExpirationEnv : Option Nat) : Response × List User :=
  match validateSignup b with
  | some r => (r, store)
  | none => signupHandler validPhone store b secret now tokenExpirationEnv

/-! ## Theorems -/

/-- C1: for every authenticated claims object and every target owner id
taken from the route's `:id` parameter, `checkAdminOrOwner` calls the
next handler if and only if the claims' role is `"admin"` or the
claims' id equals the owner id; in every other case it sends the 403
response and does not call the next handler. -/
theorem checkAdminOrOwner_allow_iff (claims : Claims) (ownerId : String) :
    (checkAdminOrOwner claims (some ownerId) = AuthzOutcome.allow ↔
      claims.role = "admin" ∨ claims.id = ownerId) ∧
    (¬ (claims.role = "admin" ∨ claims.id = ownerId) →
      checkAdminOrOwner claims (some ownerId) = AuthzOutcome.deny forbiddenResponse ∧
        forbiddenResponse.status = 403) := by
  have hcond : (claims.role = "admin" ∨ (some ownerId : Option String) = some claims.id) ↔
      (claims.role = "admin" ∨ claims.id = ownerId) := by
    constructor
    · rintro (h | h)
      · exact Or.inl h
      · exact Or.inr (Option.some.inj h).symm
    · rintro (h | h)
      · exact Or.inl h
      · exact Or.inr (congrArg some h.symm)
  constructor
  · by_cases h : claims.role = "admin" ∨ claims.id = ownerId
    · rw [checkAdminOrOwner, if_pos (hcond.mpr h)]
      simp [h]
    · rw [checkAdminOrOwner, if_neg (fun hc => h (hcond.mp hc))]
      simp [h]
  · intro h
    rw [checkAdminOrOwner, if_neg (fun hc => h (hcond.mp hc))]
    exact ⟨rfl, rfl⟩

theorem checkAdminOrOwner_allow_iff_witness :
    (checkAdminOrOwner (Claims.mk "u1" "alice" "admin") (some "u2") =
        AuthzOutcome.allow ↔
      (Claims.mk "u1" "alice" "admin").role = "admin" ∨
        (Claims.mk "u1" "alice" "admin").id = "u2") ∧
    checkAdminOrOwner (Claims.mk "u1" "alice" "user") (some "u2") =
        AuthzOutcome.deny forbiddenResponse ∧
    forbiddenResponse.status = 403 :=
  ⟨(checkAdminOrOwner_allow_iff (Claims.mk "u1" "alice" "admin") "u2").1,
   (checkAdminOrOwner_allow_iff (Claims.mk "u1" "alice" "user") "u2").2 (by decide)⟩

/-- C4: the request authenticator takes the token from the `token`
session cookie when present, otherwise from the bearer header; 401 with
the please-sign-in message (and no cookie clearing) when neither yields
a token; on any verification failure — signature, expiry, malformed —
it clears the session cookie and answers with the same 401 response;
only on success does it attach the decoded id, username and role and
continue. -/
theorem verifyToken_spec (secret : String) (now : Nat) (req : AuthRequest) :
    (req.cookieToken = none ∧ req.bearerToken = none →
      verifyToken secret now req = MwOutcome.respond pleaseSignInResponse ∧
      pleaseSignInResponse.status = 401 ∧
      pleaseSignInResponse.clearsCookie = false) ∧
    (∀ t, req.cookieToken = some t →
      verifyToken secret now req = verifyToken secret now (AuthRequest.mk (some t) none)) ∧
    (req.cookieToken = none →
      verifyToken secret now req =
        verifyToken secret now (AuthRequest.mk req.bearerToken none)) ∧
    (∀ t e, req.cookieToken.orElse (fun _ => req.bearerToken) = some t →
      jwtVerify t secret now = Except.error e →
      verifyToken secret now req = MwOutcome.respond invalidSessionResponse ∧
      invalidSessionResponse.status = 401 ∧
      invalidSessionResponse.clearsCookie = true) ∧
    (∀ t p, req.cookieToken.orElse (fun _ => req.bearerToken) = some t →
      jwtVerify t secret now = Except.ok p →
      verifyToken secret now req =
        MwOutcome.next (Claims.mk p.id p.username p.role)) := by
  refine ⟨?_, ?_, ?_, ?_, ?_⟩
  · rintro ⟨hc, hb⟩
    refine ⟨?_, rfl, rfl⟩
    rw [verifyToken, hc, hb]
    rfl
  · intro t hc
    rw [verifyToken, verifyToken, hc]
    rfl
  · intro hc
    rw [verifyToken, verifyToken, hc]
    rcases req.bearerToken with _ | t <;> rfl
  · intro t e hsel hverify
    refine ⟨?_, rfl, rfl⟩
    rw [verifyToken, hsel]
    show (match jwtVerify t secret now with
      | Except.ok payload =>
          MwOutcome.next (Claims.mk payload.id payload.username payload.role)
      | Except.error _ => MwOutcome.respond invalidSessionResponse) =
      MwOutcome.respond invalidSessionResponse
    rw [hverify]
  · intro t p hsel hverify
    rw [verifyToken, hsel]
    show (match jwtVerify t secret now with
      | Except.ok payload =>
          MwOutcome.next (Claims.mk payload.id payload.username payload.role)
      | Except.error _ => MwOutcome.respond invalidSessionResponse) =
      MwOutcome.next (Claims.mk p.id p.username p.role)
    rw [hverify]

theorem verifyToken_spec_witness :
    verifyToken "s" 100 (AuthRequest.mk none none) =
      MwOutcome.respond pleaseSignInResponse ∧
    verifyToken "s" 100 (AuthRequest.mk (some (Jwt.malformed "x")) none) =
      MwOutcome.respond invalidSessionResponse ∧
    verifyToken "s" 100
        (AuthRequest.mk (some (Jwt.signed (TokenPayload.mk "u1" "alice" "user" 0 200) "s")) none) =
      MwOutcome.next (Claims.mk "u1" "alice" "user") :=
  ⟨((verifyToken_spec "s" 100 (AuthRequest.mk none none)).1 ⟨rfl, rfl⟩).1,
   ((verifyToken_spec "s" 100 (AuthRequest.mk (some (Jwt.malformed "x")) none)).2.2.2.1
      (Jwt.malformed "x") JwtError.malformedToken rfl rfl).1,
   (verifyToken_spec "s" 100
      (AuthRequest.mk (some (Jwt.signed (TokenPayload.mk "u1" "alice" "user" 0 200) "s")) none)).2.2.2.2
      (Jwt.signed (TokenPayload.mk "u1" "alice" "user" 0 200) "s")
      (TokenPayload.mk "u1" "alice" "user" 0 200) rfl rfl⟩

/-- C5: a token issued for an identity with `rememberMe = true` expires
7 days after issuance — it still verifies at 6 days and is rejected as
expired from 7 days on; with `rememberMe = false` the expiration is the
configured window, which is 1 hour when `TOKEN_EXPIRATION` is unset. -/
theorem generateToken_expiration (u : User) (secret : String) (now : Nat)
    (env : Option Nat) :
    (u.rememberMe = true →
      generateToken u secret now env =
        Jwt.signed
          (TokenPayload.mk u._id u.username u.role now (now + 7 * 24 * 60 * 60))
          secret ∧
      jwtVerify (generateToken u secret now env) secret (now + 6 * 24 * 60 * 60) =
        Except.ok
          (TokenPayload.mk u._id u.username u.role now (now + 7 * 24 * 60 * 60)) ∧
      (∀ t, now + 7 * 24 * 60 * 60 ≤ t →
        jwtVerify (generateToken u secret now env) secret t =
          Except.error JwtError.expired)) ∧
    (u.rememberMe = false →
      generateToken u secret now env =
        Jwt.signed
          (TokenPayload.mk u._id u.username u.role now (now + env.getD 3600))
          secret) ∧
    (u.rememberMe = false → env = none →
      generateToken u secret now env =
        Jwt.signed (TokenPayload.mk u._id u.username u.role now (now + 3600))
          secret) := by
  refine ⟨?_, ?_, ?_⟩
  · intro h
    have hexp : ¬ (now + 7 * 24 * 60 * 60 ≤ now + 6 * 24 * 60 * 60) := by omega
    refine ⟨?_, ?_, ?_⟩
    · simp [generateToken, expirationSecs, h]
    · simp [generateToken, expirationSecs, jwtVerify, h, hexp]
    · intro t ht
      simp [generateToken, expirationSecs, jwtVerify, h] at ht ⊢
      omega
  · intro h
    simp [generateToken, expirationSecs, h]
  · intro h henv
    simp [generateToken, expirationSecs, h, henv]

theorem generateToken_expiration_witness :
    generateToken
        (User.mk "u5" "eve" "e@f.g" "0912345222" "Eve"
          (hashPassword "Secret1!") "user" true true none) "s" 1000 none =
      Jwt.signed (TokenPayload.mk "u5" "eve" "user" 1000 (1000 + 7 * 24 * 60 * 60)) "s" ∧
    jwtVerify
        (generateToken
          (User.mk "u5" "eve" "e@f.g" "0912345222" "Eve"
            (hashPassword "Secret1!") "user" true true none) "s" 1000 none)
        "s" (1000 + 6 * 24 * 60 * 60) =
      Except.ok (TokenPayload.mk "u5" "eve" "user" 1000 (1000 + 7 * 24 * 60 * 60)) ∧
    jwtVerify
        (generateToken
          (User.mk "u5" "eve" "e@f.g" "0912345222" "Eve"
            (hashPassword "Secret1!") "user" true true none) "s" 1000 none)
        "s" (1000 + 7 * 24 * 60 * 60) =
      Except.error JwtError.expired := by
  obtain ⟨h1, h2, h3⟩ :=
    (generateToken_expiration
      (User.mk "u5" "eve" "e@f.g" "0912345222" "Eve"
        (hashPassword "Secret1!") "user" true true none) "s" 1000 none).1 rfl
  exact ⟨h1, h2, h3 (1000 + 7 * 24 * 60 * 60) (Nat.le_refl _)⟩

/-- C9: on a route whose path declares no `:id` parameter (such as
`GET /users`), `req.params.id` is `undefined`, so a requester whose
token role is not `"admin"` is always denied with 403 by
`checkAdminOrOwner`, whatever their own id: the route is effectively
admin-only. -/
theorem checkAdminOrOwner_noParam_adminOnly (claims : Claims)
    (h : claims.role ≠ "admin") :
    checkAdminOrOwner claims usersRouteParamsId =
      AuthzOutcome.deny forbiddenResponse ∧
    forbiddenResponse.status = 403 := by
  rw [checkAdminOrOwner, usersRouteParamsId, if_neg]
  · exact ⟨rfl, rfl⟩
  · rintro (hc | hc)
    · exact h hc
    · exact Option.noConfusion hc

theorem checkAdminOrOwner_noParam_adminOnly_witness :
    checkAdminOrOwner (Claims.mk "u9" "frank" "user") usersRouteParamsId =
      AuthzOutcome.deny forbiddenResponse ∧
    forbiddenResponse.status = 403 :=
  checkAdminOrOwner_noParam_adminOnly (Claims.mk "u9" "frank" "user") (by decide)

/-- C8: for every signin request, the response on a username-or-phone
lookup miss and the response on a found identity whose password does
not verify are the same HTTP 400 response with the same message body,
so an observer cannot tell which of the two failed. -/
theorem signin_failure_indistinguishable (store₁ store₂ : List User)
    (login₁ pw₁ login₂ pw₂ secret : String) (now : Nat) (env : Option Nat)
    (u : User) (hlogin₁ : login₁ ≠ "") (hpw₁ : pw₁ ≠ "")
    (hmiss : (if isPhoneShaped login₁ then findByPhone store₁ login₁
      else findByUsername store₁ login₁) = none)
    (hlogin₂ : login₂ ≠ "") (hpw₂ : pw₂ ≠ "")
    (hfound : (if isPhoneShaped login₂ then findByPhone store₂ login₂
      else findByUsername store₂ login₂) = some u)
    (hmismatch : checkPassword pw₂ u.password = false) :
    signinHandler store₁ login₁ pw₁ secret now env = invalidCredentialsResponse ∧
    signinHandler store₂ login₂ pw₂ secret now env = invalidCredentialsResponse ∧
    signinHandler store₁ login₁ pw₁ secret now env =
      signinHandler store₂ login₂ pw₂ secret now env ∧
    invalidCredentialsResponse.status = 400 := by
  have h₁ : signinHandler store₁ login₁ pw₁ secret now env =
      invalidCredentialsResponse := by
    rw [signinHandler, if_neg hlogin₁, if_neg hpw₁, hmiss]
  have h₂ : signinHandler store₂ login₂ pw₂ secret now env =
      invalidCredentialsResponse := by
    rw [signinHandler, if_neg hlogin₂, if_neg hpw₂, hfound]
    simp [hmismatch]
  exact ⟨h₁, h₂, h₁.trans h₂.symm, rfl⟩

def c8User : User :=
  User.mk "u8" "carol" "c@d.e" "0912345000" "Carol" (hashPassword "Right1!a")
    "user" true false none

theorem signin_failure_indistinguishable_witness :
    signinHandler [] "carol" "xyz" "s" 10 none = invalidCredentialsResponse ∧
    signinHandler [c8User] "carol" "Wrong1!a" "s" 10 none =
      invalidCredentialsResponse ∧
    signinHandler [] "carol" "xyz" "s" 10 none =
      signinHandler [c8User] "carol" "Wrong1!a" "s" 10 none :=
  ⟨(signin_failure_indistinguishable [] [c8User] "carol" "xyz" "carol" "Wrong1!a"
      "s" 10 none c8User (by decide) (by decide) (by decide) (by decide)
      (by decide) (by decide) (by decide)).1,
   (signin_failure_indistinguishable [] [c8User] "carol" "xyz" "carol" "Wrong1!a"
      "s" 10 none c8User (by decide) (by decide) (by decide) (by decide)
      (by decide) (by decide) (by decide)).2.1,
   (signin_failure_indistinguishable [] [c8User] "carol" "xyz" "carol" "Wrong1!a"
      "s" 10 none c8User (by decide) (by decide) (by decide) (by decide)
      (by decide) (by decide) (by decide)).2.2.1⟩

/-- C10: `GET /:id` mounts no authentication middleware: its response
is independent of any credentials on the request, and for every stored
identity id it returns the record with the password field removed. -/
theorem getUserById_public (store : List User) (id : String) (u : User)
    (req : AuthRequest) (hid : isValidObjectId id = true)
    (hfind : findById store id = some u) :
    getUserByIdRoute req store id =
      Response.mk 200 "Lấy thông tin người dùng thành công." (some true) []
        (some (sanitizeUser u)) none none false ∧
    (sanitizeUser u).password = none ∧
    (∀ req₂, getUserByIdRoute req₂ store id = getUserByIdRoute req store id) := by
  refine ⟨?_, rfl, fun req₂ => rfl⟩
  rw [getUserByIdRoute, getUserByIdHandler, hfind]
  simp [hid]

def c10User : User :=
  User.mk "cccccccccccccccccccccccc" "dave" "d@e.f" "0912345111" "Dave"
    (hashPassword "Pass1!aa") "user" true false none

theorem getUserById_public_witness :
    getUserByIdRoute (AuthRequest.mk none none) [c10User]
        "cccccccccccccccccccccccc" =
      Response.mk 200 "Lấy thông tin người dùng thành công." (some true) []
        (some (sanitizeUser c10User)) none none false ∧
    (sanitizeUser c10User).password = none :=
  ⟨(getUserById_public [c10User] "cccccccccccccccccccccccc" c10User
      (AuthRequest.mk none none) (by decide) (by decide)).1,
   (getUserById_public [c10User] "cccccccccccccccccccccccc" c10User
      (AuthRequest.mk none none) (by decide) (by decide)).2.1⟩

/-! ### C2 — role escalation through `PUT /:id` -/

def c2User : User :=
  User.mk "aaaaaaaaaaaaaaaaaaaaaaaa" "alice" "alice@example.com" "0912345678"
    "Alice A" (hashPassword "Secret1!") "user" true false none

/-- A valid session token for `c2User`, carrying role `"user"`. -/
def c2Token : Jwt :=
  Jwt.signed (TokenPayload.mk "aaaaaaaaaaaaaaaaaaaaaaaa" "alice" "user" 0 3600)
    "s"

/-- The update body `{ role: "admin" }` and nothing else. -/
def c2Body : UpdateBody :=
  UpdateBody.mk none none none none (some "admin") none none none

def c2Result : Response × List User :=
  putUserRoute (fun _ => true) (fun _ => true) "s" 100
    (AuthRequest.mk (some c2Token) none) "aaaaaaaaaaaaaaaaaaaaaaaa" c2Body
    [c2User]

/-- C2 fails on the code: `PUT /:id` runs `checkAdminOrOwner`, which
admits the record's owner, and then persists `role: role || user.role`
from the request body — so a request authenticated with role `"user"`
(the owner's own token) changes the identity's role to `"admin"` and
receives 200. -/
theorem putUser_owner_can_set_role :
    c2User.role = "user" ∧
    verifyToken "s" 100 (AuthRequest.mk (some c2Token) none) =
      MwOutcome.next (Claims.mk "aaaaaaaaaaaaaaaaaaaaaaaa" "alice" "user") ∧
    c2Result.1.status = 200 ∧
    c2Result.2.map User.role = ["admin"] := by
  refine ⟨rfl, rfl, ?_, ?_⟩ <;> decide

/-! ### C3 — federated signin persists and returns a raw password -/

def c3Result : Response × List User :=
  authWithGoogle [] "John Smith" "john@example.com" none "0341234567"
    "k3j2h1g0" "s" 100 none

/-- C3 fails on the code: `POST /authWithGoogle` persists the freshly
synthesized identity with the random password string assigned directly
to the `password` field (never passed through `hashPassword`), and its
200 response carries `user: existingUser` — the raw document whose
password field is present. For contrast, signup does persist a bcrypt
digest. -/
theorem authWithGoogle_stores_and_returns_raw_password :
    c3Result.2.map User.password = [StoredPassword.raw "k3j2h1g0"] ∧
    (StoredPassword.raw "k3j2h1g0").isDigest = false ∧
    c3Result.1.user.map UserView.password =
      some (some (StoredPassword.raw "k3j2h1g0")) ∧
    c3Result.1.status = 200 ∧
    (hashPassword "Any1!pass").isDigest = true := by
  refine ⟨?_, rfl, ?_, ?_, rfl⟩ <;> decide

/-! ### C6 — password change never enforces the strength policy -/

def c6User : User :=
  User.mk "bbbbbbbbbbbbbbbbbbbbbbbb" "bob" "bob@example.com" "0912345679"
    "Bob B" (hashPassword "OldPass1!") "user" true false none

def c6Result : Response × List User :=
  changePasswordHandler [c6User] "bbbbbbbbbbbbbbbbbbbbbbbb" "OldPass1!" "a"

/-- C6 fails on the code: the new-password check is
`if (!isValidPassword(newPassword))`, and `isValidPassword` returns an
array — truthy even when non-empty — so the rejecting branch is dead:
with the correct current password, the weak new password `"a"` (which
violates four of the five signup strength rules) is hashed and
persisted with a 200 response. -/
theorem changePassword_accepts_weak_password :
    (isValidPassword "a").isEmpty = false ∧
    checkPassword "OldPass1!" c6User.password = true ∧
    c6Result.1.status = 200 ∧
    c6Result.2.map User.password = [hashPassword "a"] := by
  refine ⟨?_, ?_, ?_, ?_⟩ <;> decide

/-! ### C7 — the Joi middleware preempts the per-class enumeration -/

def c7Body : SignupBody :=
  SignupBody.mk "john123" "0912345678" "John Smith" "abc12345" "abc12345"

def c7Result : Response × List User :=
  signupRoute (fun _ => true) [] c7Body "s" 100 none

/-- C7 as stated fails on the code: a signup whose password is
`"abc12345"` (other fields valid) is rejected, but by the
`validateSignup` Joi middleware, whose 400 response carries the single
combined pattern message — it contains neither the independent
missing-uppercase entry nor the missing-special-character entry. -/
theorem signup_abc12345_single_combined_message :
    c7Result.1.status = 400 ∧
    pwMsgUpper ∉ c7Result.1.errors ∧
    pwMsgSpecial ∉ c7Result.1.errors ∧
    c7Result.1.errors.length = 1 := by
  refine ⟨?_, ?_, ?_, ?_⟩ <;> decide

/-- C7 amended: the signup request with password `"abc12345"` is
rejected with HTTP 400 — by the Joi validation middleware, whose
response body carries the one combined has-uppercase/lowercase/digit
pattern message — while the handler's own `isValidPassword`, which the
middleware preempts, enumerates exactly the two missing classes
(uppercase, special character) independently, with the minimum length
satisfied. -/
theorem signup_abc12345_amended :
    c7Result.1.status = 400 ∧
    c7Result.1.message = "Dữ liệu đăng ký không hợp lệ" ∧
    c7Result.1.errors = [joiPasswordPatternMsg] ∧
    isValidPassword "abc12345" = [pwMsgUpper, pwMsgSpecial] := by
  refine ⟨?_, ?_, ?_, ?_⟩ <;> decide

end ServerFixed
